import Mathlib

/-
  Verification of the imago media-search service.

  Shallow embedding of the core of the repository:
    - app/models/media_item.py          (MediaItem)
    - app/services/media_fetch_service.py (MediaFetchService.search /
      normalize_media_item)
    - app/services/elasticsearch_service.py (ElasticsearchService:
      fetch_media_items, _build_elasticsearch_query, process_search_results,
      convert_hit_to_media_item, build_thumbnail_url)

  Python values are modelled by the inductive `Value` (string, int, bool,
  None, list, dict); Python dicts are association lists with in-place
  update and append-on-new-key, matching CPython insertion-order
  semantics.  Operations that can raise in Python are modelled in
  `Except PyError`.  String predicates (`str.isdigit`, `str.strip`) are
  modelled over ASCII, which covers every value occurring in the catalog
  data and in the claims.
-/

/-- A dynamically typed Python value, as it occurs in Elasticsearch
source documents and in `MediaItem.additional_data`. -/
inductive Value where
  | vStr : String → Value
  | vInt : Int → Value
  | vBool : Bool → Value
  | vNone : Value
  | vList : List Value → Value
  | vDict : List (String × Value) → Value

/-- Exceptions the embedded Python fragments can raise. -/
inductive PyError where
  | typeError : String → PyError
  | attributeError : String → PyError
deriving Repr, DecidableEq

/-- `d[k]` lookup in a Python dict (first binding of the key). -/
def dictGet? : List (String × Value) → String → Option Value
  | [], _ => none
  | (k, v) :: rest, key => if k = key then some v else dictGet? rest key

/-- `d[k] = v` on a Python dict: update in place when the key exists
(keeping its position), append otherwise. -/
def dictSet : List (String × Value) → String → Value → List (String × Value)
  | [], key, val => [(key, val)]
  | (k, v) :: rest, key, val =>
      if k = key then (k, val) :: rest else (k, v) :: dictSet rest key val

/-- `k in d` on a Python dict. -/
def dictContains (d : List (String × Value)) (key : String) : Bool :=
  (dictGet? d key).isSome

/-- `d.get(k, default)` on a Python dict. -/
def dictGetD (d : List (String × Value)) (key : String) (dflt : Value) : Value :=
  (dictGet? d key).getD dflt

/-- `v.get(k, default)` on an arbitrary Python value: raises
AttributeError unless the receiver is a dict. -/
def pyGet (v : Value) (key : String) (dflt : Value) : Except PyError Value :=
  match v with
  | .vDict d => .ok (dictGetD d key dflt)
  | _ => .error (.attributeError "get")

/-- Python truthiness (`if x:`). -/
def pyTruthy : Value → Bool
  | .vStr s => !s.data.isEmpty
  | .vInt n => n ≠ 0
  | .vBool b => b
  | .vNone => false
  | .vList l => !l.isEmpty
  | .vDict d => !d.isEmpty

/-- `isinstance(x, int)`: in Python `bool` is a subclass of `int`. -/
def isIntInstance : Value → Bool
  | .vInt _ => true
  | .vBool _ => true
  | _ => false

/-- `s.isdigit()` (ASCII digits; every catalog value is ASCII). -/
def pyIsDigit (s : String) : Bool :=
  !s.data.isEmpty && s.data.all Char.isDigit

/-- `int(s)` on a string of digits. -/
def strToNat (s : String) : Nat :=
  s.data.foldl (fun a c => a * 10 + (c.toNat - 48)) 0

/-- Decimal digits of a natural number, most significant first.  The
first argument is recursion fuel; `n + 1` is always enough for `n`. -/
def natDigits : Nat → Nat → List Char
  | 0, _ => []
  | fuel + 1, n =>
      if n < 10 then [Nat.digitChar n]
      else natDigits fuel (n / 10) ++ [Nat.digitChar (n % 10)]

/-- `str(n)` for a Python int (decimal form, `-` sign for negatives). -/
def pyIntRepr (n : Int) : String :=
  if n < 0 then ⟨'-' :: natDigits (n.natAbs + 1) n.natAbs⟩
  else ⟨natDigits (n.natAbs + 1) n.natAbs⟩

/-- `str(x)` as used by f-strings; the list/dict reprs are never reached
in the embedded code paths. -/
def pyStrOf : Value → String
  | .vStr s => s
  | .vInt n => pyIntRepr n
  | .vBool b => if b then "True" else "False"
  | .vNone => "None"
  | .vList _ => "[...]"
  | .vDict _ => "\x7b...\x7d"

/-- `x[:n]`: strings and lists slice; everything else raises TypeError. -/
def pySlice (v : Value) (n : Nat) : Except PyError Value :=
  match v with
  | .vStr s => .ok (.vStr ⟨s.data.take n⟩)
  | .vList l => .ok (.vList (l.take n))
  | _ => .error (.typeError "object is not subscriptable")

/-- `s.strip()` on a string: drop leading and trailing whitespace. -/
def stripStr (s : String) : String :=
  ⟨((s.data.dropWhile Char.isWhitespace).reverse.dropWhile
      Char.isWhitespace).reverse⟩

/-- `x.strip()`: defined on strings only. -/
def pyStrip : Value → Except PyError Value
  | .vStr s => .ok (.vStr (stripStr s))
  | _ => .error (.attributeError "strip")

/-- `s.zfill(width)`: pad with leading zeros to `width`, after a sign. -/
def zfill (s : String) (width : Nat) : String :=
  let pad := List.replicate (width - s.data.length) '0'
  match s.data with
  | c :: rest => if c = '-' || c = '+' then ⟨c :: (pad ++ rest)⟩ else ⟨pad ++ s.data⟩
  | [] => ⟨pad⟩

/-- `app/models/media_item.py`: the MediaItem dataclass.  The named
attributes are annotated `str` in the source but, being Python, hold
whatever the hit supplied, so they are modelled as `Value`. -/
structure MediaItem where
  id : Value
  title : Value
  description : Value
  photographer : Value
  date : Value
  thumbnail_url : Value
  additional_data : List (String × Value)

/- ------------------------------------------------------------------
   MediaFetchService.normalize_media_item
   ------------------------------------------------------------------ -/

/-- The `defaults` dict literal in `normalize_media_item` (and the
default `additional_data` entries in `convert_hit_to_media_item`),
in insertion order. -/
def normalizeDefaults : List (String × Value) :=
  [("bildnummer", .vStr ""), ("hoehe", .vInt 0),
   ("breite", .vInt 0), ("db", .vStr "st")]

/-- One iteration of the defaults loop:
`if field not in d: d[field] = default_value`. -/
def setDefault (d : List (String × Value)) (key : String) (v : Value) :
    List (String × Value) :=
  if dictContains d key then d else dictSet d key v

/-- The defaults loop of `normalize_media_item`. -/
def applyDefaults (d : List (String × Value)) : List (String × Value) :=
  normalizeDefaults.foldl (fun acc kv => setDefault acc kv.1 kv.2) d

/-- `normalize_media_item`, bildnummer step:
convert `additional_data["bildnummer"]` to a string if it is an int. -/
def coerceBildnummer (d : List (String × Value)) : List (String × Value) :=
  match dictGet? d "bildnummer" with
  | some v => if isIntInstance v then dictSet d "bildnummer" (.vStr (pyStrOf v)) else d
  | none => d

/-- `normalize_media_item`, dimension step for one of `hoehe`/`breite`:
convert the value to an int if it is a string of digits. -/
def coerceDim (d : List (String × Value)) (field : String) :
    List (String × Value) :=
  match dictGet? d field with
  | some (.vStr s) =>
      if pyIsDigit s then dictSet d field (.vInt (strToNat s)) else d
  | _ => d

/-- The full effect of `normalize_media_item` on `additional_data`:
the defaults loop, then the bildnummer coercion, then the `hoehe` and
`breite` coercions, in source order. -/
def normalizeDict (d : List (String × Value)) : List (String × Value) :=
  coerceDim (coerceDim (coerceBildnummer (applyDefaults d)) "hoehe") "breite"

/-- `MediaFetchService.normalize_media_item` (the Python function
mutates the item in place; modelled as returning the updated item).
It only ever touches `additional_data`. -/
def normalize_media_item (m : MediaItem) : MediaItem :=
  { m with additional_data := normalizeDict m.additional_data }

/- ------------------------------------------------------------------
   ElasticsearchService
   ------------------------------------------------------------------ -/

/-- `ElasticsearchService.build_thumbnail_url`.  `bildnummer.zfill(10)`
raises AttributeError unless `bildnummer` is a string; `db` is rendered
by the f-string with `str()`; `IMAGE_BASE_URL` is read from the
environment (`none` renders as the string `None`). -/
def build_thumbnail_url (bildnummer db : Value) (image_base_url : Option String) :
    Except PyError String :=
  match bildnummer with
  | .vStr s =>
      let base := match image_base_url with | some b => b | none => "None"
      .ok (base ++ "/bild/" ++ pyStrOf db ++ "/" ++ zfill s 10 ++ "/s.jpg")
  | _ => .error (.attributeError "zfill")

/-- The source keys promoted to named MediaItem attributes and hence
excluded from the `additional_data` copy loop. -/
def excludedKeys : List String := ["title", "description", "fotografen", "datum"]

/-- `ElasticsearchService.convert_hit_to_media_item`.  Mirrors the
source line by line; note that Python evaluates the default argument
`suchtext[:50].strip()` of `source.get("title", ...)` eagerly, before
checking whether `title` is present. -/
def convert_hit_to_media_item (hit : List (String × Value))
    (image_base_url : Option String) : Except PyError MediaItem := do
  let source := dictGetD hit "_source" (.vDict [])
  let suchtext ← pyGet source "suchtext" (.vStr "")
  let sliced ← pySlice suchtext 50
  let titleDefault ← pyStrip sliced
  let title ← pyGet source "title" titleDefault
  let description ← pyGet source "description" suchtext
  let photographer ← pyGet source "fotografen" (.vStr "")
  let date ← pyGet source "datum" (.vStr "")
  let srcEntries ← match source with
    | .vDict d => Except.ok d
    | _ => Except.error (PyError.attributeError "items")
  let ad0 : List (String × Value) :=
    [("bildnummer", .vStr ""), ("hoehe", .vInt 0), ("breite", .vInt 0),
     ("db", .vStr "st"), ("score", dictGetD hit "_score" (.vInt 0))]
  let ad := srcEntries.foldl
    (fun acc kv => if kv.1 ∈ excludedKeys then acc else dictSet acc kv.1 kv.2) ad0
  let bildnummer := dictGetD ad "bildnummer" (.vStr "")
  let db := dictGetD ad "db" (.vStr "")
  let thumb ← if pyTruthy bildnummer && pyTruthy db then
      (build_thumbnail_url bildnummer db image_base_url).map Value.vStr
    else Except.ok (Value.vStr "")
  Except.ok
    { id := dictGetD hit "_id" (.vStr ""), title := title,
      description := description, photographer := photographer, date := date,
      thumbnail_url := thumb, additional_data := ad }

/-- The multi-field match clause field list of
`_build_elasticsearch_query`. -/
def searchFields : List Value := [.vStr "suchtext", .vStr "description", .vStr "title"]

/-- The filter keys given dedicated handling by
`_build_elasticsearch_query`. -/
def specialFilterKeys : List String := ["photographer", "min_date", "max_date"]

/-- `filters[k]` when `k in filters`, over the filter map (a Python
dict, so keys are unique). -/
def filterLookup (fs : List (String × String)) (k : String) : Option String :=
  (fs.find? (fun kv => kv.1 == k)).map (fun kv => kv.2)

/-- The `filter_conditions` list built by `_build_elasticsearch_query`
for a non-empty filter map, in construction order: photographer term,
min_date range, max_date range, then one term per remaining key. -/
def filterConditions (fs : List (String × String)) : List Value :=
  (match filterLookup fs "photographer" with
   | some v => [Value.vDict [("term", .vDict [("fotografen", .vStr v)])]]
   | none => []) ++
  (match filterLookup fs "min_date" with
   | some v => [Value.vDict [("range", .vDict [("datum", .vDict [("gte", .vStr v)])])]]
   | none => []) ++
  (match filterLookup fs "max_date" with
   | some v => [Value.vDict [("range", .vDict [("datum", .vDict [("lte", .vStr v)])])]]
   | none => []) ++
  (fs.filter (fun kv => !(specialFilterKeys.contains kv.1))).map
    (fun kv => Value.vDict [("term", .vDict [(kv.1, .vStr kv.2)])])

/-- `ElasticsearchService._build_elasticsearch_query` (the query value
is the JSON-like dict sent as the `query` argument of the index call). -/
def build_elasticsearch_query (query : String)
    (filters : Option (List (String × String))) : Value :=
  let match_query : Value :=
    if !query.data.isEmpty then
      .vDict [("multi_match",
        .vDict [("query", .vStr query), ("fields", .vList searchFields)])]
    else
      .vDict [("match_all", .vDict [])]
  match filters with
  | some fs =>
      if fs.length > 0 then
        .vDict [("bool",
          .vDict [("must", match_query), ("filter", .vList (filterConditions fs))])]
      else match_query
  | none => match_query

/-- The request `ElasticsearchService.fetch_media_items` issues to the
index: `client.search(index=..., query=..., from_=..., size=...)`. -/
structure ESRequest where
  index : String
  query : Value
  from_ : Int
  size : Int

/-- `ElasticsearchService.fetch_media_items`, request side: builds the
query and computes `from_value = (page - 1) * size`; no validation of
`page` or `size` is performed anywhere on this path. -/
def fetch_media_items_request (index : String) (query : String) (page size : Int)
    (filters : Option (List (String × String))) : ESRequest :=
  { index := index,
    query := build_elasticsearch_query query filters,
    from_ := (page - 1) * size,
    size := size }

/-- The list comprehension
`[self.convert_hit_to_media_item(hit) for hit in hits_list]`;
an element that is not a dict raises inside `convert_hit_to_media_item`
at `hit.get`. -/
def convertHits : List Value → Option String → Except PyError (List MediaItem)
  | [], _ => .ok []
  | h :: rest, base => do
      let hd ← match h with
        | .vDict d => Except.ok d
        | _ => Except.error (PyError.attributeError "get")
      let m ← convert_hit_to_media_item hd base
      let ms ← convertHits rest base
      Except.ok (m :: ms)

/-- `ElasticsearchService.process_search_results`, applied to the
response body (the `hasattr(response, "body")` unwrapping selects the
body dict first). -/
def process_search_results (responseBody : Value) (image_base_url : Option String) :
    Except PyError (Value × List MediaItem) := do
  let hits ← pyGet responseBody "hits" (.vDict [])
  let totalDict ← pyGet hits "total" (.vDict [])
  let total ← pyGet totalDict "value" (.vInt 0)
  let hitsList ← pyGet hits "hits" (.vList [])
  let l ← match hitsList with
    | .vList l => Except.ok l
    | _ => Except.error (PyError.typeError "object is not iterable")
  let items ← convertHits l image_base_url
  Except.ok (total, items)

/-- `MediaFetchService.search`, post-fetch pipeline: process the raw
index response, then normalize every returned item. -/
def search_results (responseBody : Value) (image_base_url : Option String) :
    Except PyError (Value × List MediaItem) := do
  let (total, items) ← process_search_results responseBody image_base_url
  Except.ok (total, items.map normalize_media_item)

/- ------------------------------------------------------------------
   Dictionary lemmas
   ------------------------------------------------------------------ -/

theorem dictGet?_set_self (d : List (String × Value)) (k : String) (v : Value) :
    dictGet? (dictSet d k v) k = some v := by
  induction d with
  | nil => simp [dictSet, dictGet?]
  | cons kv rest ih =>
      obtain ⟨k1, v1⟩ := kv
      by_cases h : k1 = k <;> simp [dictSet, dictGet?, h, ih]

theorem dictGet?_set_other (d : List (String × Value)) (k k' : String) (v : Value)
    (h : k' ≠ k) : dictGet? (dictSet d k v) k' = dictGet? d k' := by
  induction d with
  | nil =>
      simp only [dictSet, dictGet?]
      rw [if_neg (fun hh => h hh.symm)]
  | cons kv rest ih =>
      obtain ⟨k1, v1⟩ := kv
      by_cases h1 : k1 = k
      · subst h1
        have h2 : ¬k1 = k' := fun hh => h hh.symm
        simp [dictSet, dictGet?, h2]
      · by_cases h2 : k1 = k' <;> simp [dictSet, dictGet?, h1, h2, ih, h]

theorem dictContains_set_self (d : List (String × Value)) (k : String) (v : Value) :
    dictContains (dictSet d k v) k = true := by
  simp [dictContains, dictGet?_set_self]

theorem dictContains_set_mono (d : List (String × Value)) (k k' : String) (v : Value)
    (h : dictContains d k' = true) : dictContains (dictSet d k v) k' = true := by
  by_cases hk : k' = k
  · subst hk; exact dictContains_set_self d k' v
  · simpa [dictContains, dictGet?_set_other d k k' v hk] using h

theorem setDefault_of_contains (d : List (String × Value)) (k : String) (v : Value)
    (h : dictContains d k = true) : setDefault d k v = d := by
  simp [setDefault, h]

theorem dictGet?_setDefault_other (d : List (String × Value)) (k k' : String)
    (v : Value) (h : k' ≠ k) :
    dictGet? (setDefault d k v) k' = dictGet? d k' := by
  unfold setDefault
  by_cases hc : dictContains d k <;> simp [hc, dictGet?_set_other d k k' v h]

theorem dictGet?_setDefault_pres (d : List (String × Value)) (k k' : String)
    (v w : Value) (h : dictGet? d k' = some w) :
    dictGet? (setDefault d k v) k' = some w := by
  by_cases hk : k' = k
  · subst hk
    rw [setDefault_of_contains d k' v (by simp [dictContains, h])]
    exact h
  · rw [dictGet?_setDefault_other d k k' v hk]; exact h

theorem dictGet?_setDefault_of_none (d : List (String × Value)) (k : String)
    (v : Value) (h : dictGet? d k = none) :
    dictGet? (setDefault d k v) k = some v := by
  unfold setDefault
  simp [dictContains, h, dictGet?_set_self]

theorem dictContains_setDefault_self (d : List (String × Value)) (k : String)
    (v : Value) : dictContains (setDefault d k v) k = true := by
  unfold setDefault
  by_cases hc : dictContains d k <;> simp [hc, dictContains_set_self]

theorem dictContains_setDefault_mono (d : List (String × Value)) (k k' : String)
    (v : Value) (h : dictContains d k' = true) :
    dictContains (setDefault d k v) k' = true := by
  unfold setDefault
  by_cases hc : dictContains d k <;> simp [hc, h, dictContains_set_mono d k k' v h]

/-- `applyDefaults` unfolded to its four sequential steps. -/
theorem applyDefaults_eq (d : List (String × Value)) :
    applyDefaults d =
      setDefault (setDefault (setDefault (setDefault d
        "bildnummer" (.vStr "")) "hoehe" (.vInt 0)) "breite" (.vInt 0))
        "db" (.vStr "st") := rfl

theorem dictGet?_applyDefaults_pres (d : List (String × Value)) (k : String)
    (w : Value) (h : dictGet? d k = some w) :
    dictGet? (applyDefaults d) k = some w := by
  rw [applyDefaults_eq]
  exact dictGet?_setDefault_pres _ _ _ _ _ (dictGet?_setDefault_pres _ _ _ _ _
    (dictGet?_setDefault_pres _ _ _ _ _ (dictGet?_setDefault_pres _ _ _ _ _ h)))

theorem dictGet?_applyDefaults_other (d : List (String × Value)) (k : String)
    (h1 : k ≠ "bildnummer") (h2 : k ≠ "hoehe") (h3 : k ≠ "breite")
    (h4 : k ≠ "db") : dictGet? (applyDefaults d) k = dictGet? d k := by
  rw [applyDefaults_eq, dictGet?_setDefault_other _ _ _ _ h4,
    dictGet?_setDefault_other _ _ _ _ h3, dictGet?_setDefault_other _ _ _ _ h2,
    dictGet?_setDefault_other _ _ _ _ h1]

theorem dictContains_applyDefaults (d : List (String × Value)) :
    dictContains (applyDefaults d) "bildnummer" = true ∧
    dictContains (applyDefaults d) "hoehe" = true ∧
    dictContains (applyDefaults d) "breite" = true ∧
    dictContains (applyDefaults d) "db" = true := by
  rw [applyDefaults_eq]
  refine ⟨?_, ?_, ?_, ?_⟩
  · exact dictContains_setDefault_mono _ _ _ _ (dictContains_setDefault_mono _ _ _ _
      (dictContains_setDefault_mono _ _ _ _ (dictContains_setDefault_self _ _ _)))
  · exact dictContains_setDefault_mono _ _ _ _ (dictContains_setDefault_mono _ _ _ _
      (dictContains_setDefault_self _ _ _))
  · exact dictContains_setDefault_mono _ _ _ _ (dictContains_setDefault_self _ _ _)
  · exact dictContains_setDefault_self _ _ _

/-- Values that the `hoehe`/`breite` step of `normalize_media_item`
would still coerce. -/
def isDigitStrVal : Value → Bool
  | .vStr s => pyIsDigit s
  | _ => false

theorem coerceBildnummer_frame (d : List (String × Value)) (k : String)
    (h : k ≠ "bildnummer") :
    dictGet? (coerceBildnummer d) k = dictGet? d k := by
  unfold coerceBildnummer
  cases hv : dictGet? d "bildnummer" with
  | none => rfl
  | some v =>
      by_cases hi : isIntInstance v <;>
        simp [hi, dictGet?_set_other _ _ _ _ h]

theorem coerceBildnummer_contains_mono (d : List (String × Value)) (k : String)
    (h : dictContains d k = true) :
    dictContains (coerceBildnummer d) k = true := by
  unfold coerceBildnummer
  cases hv : dictGet? d "bildnummer" with
  | none => exact h
  | some v =>
      by_cases hi : isIntInstance v <;>
        simp [hi, h, dictContains_set_mono _ _ _ _ h]

theorem coerceBildnummer_char (d : List (String × Value)) (v : Value)
    (h : dictGet? (coerceBildnummer d) "bildnummer" = some v) :
    isIntInstance v = false := by
  unfold coerceBildnummer at h
  cases hv : dictGet? d "bildnummer" with
  | none => rw [hv] at h; simp [hv] at h
  | some w =>
      rw [hv] at h
      by_cases hi : isIntInstance w
      · simp [hi, dictGet?_set_self] at h
        exact h ▸ rfl
      · simp [hi, hv] at h
        simp at hi
        exact h ▸ hi

theorem coerceBildnummer_noop (d : List (String × Value))
    (hyp : ∀ v, dictGet? d "bildnummer" = some v → isIntInstance v = false) :
    coerceBildnummer d = d := by
  unfold coerceBildnummer
  cases hv : dictGet? d "bildnummer" with
  | none => rfl
  | some v => simp [hyp v hv]

theorem coerceDim_frame (d : List (String × Value)) (f k : String)
    (h : k ≠ f) : dictGet? (coerceDim d f) k = dictGet? d k := by
  unfold coerceDim
  cases hv : dictGet? d f with
  | none => rfl
  | some w =>
      cases w <;> simp [dictGet?_set_other _ _ _ _ h] <;>
        split <;> simp [dictGet?_set_other _ _ _ _ h]

theorem coerceDim_contains_mono (d : List (String × Value)) (f k : String)
    (h : dictContains d k = true) :
    dictContains (coerceDim d f) k = true := by
  unfold coerceDim
  cases hv : dictGet? d f with
  | none => exact h
  | some w =>
      cases w <;> simp [h] <;> split <;>
        simp [h, dictContains_set_mono _ _ _ _ h]

theorem coerceDim_char (d : List (String × Value)) (f : String) (v : Value)
    (h : dictGet? (coerceDim d f) f = some v) :
    isDigitStrVal v = false := by
  unfold coerceDim at h
  cases hv : dictGet? d f with
  | none => rw [hv] at h; simp [hv] at h
  | some w =>
      rw [hv] at h
      cases w with
      | vStr s =>
          by_cases hd : pyIsDigit s
          · simp [hd, dictGet?_set_self] at h
            exact h ▸ rfl
          · simp [hd, hv] at h
            simp [← h, isDigitStrVal]
            simpa using hd
      | vInt n => simp [hv] at h; exact h ▸ rfl
      | vBool b => simp [hv] at h; exact h ▸ rfl
      | vNone => simp [hv] at h; exact h ▸ rfl
      | vList l => simp [hv] at h; exact h ▸ rfl
      | vDict dd => simp [hv] at h; exact h ▸ rfl

theorem coerceDim_noop (d : List (String × Value)) (f : String)
    (hyp : ∀ v, dictGet? d f = some v → isDigitStrVal v = false) :
    coerceDim d f = d := by
  unfold coerceDim
  cases hv : dictGet? d f with
  | none => rfl
  | some w =>
      cases w with
      | vStr s =>
          have := hyp (.vStr s) hv
          simp [isDigitStrVal] at this
          simp [this]
      | vInt n => rfl
      | vBool b => rfl
      | vNone => rfl
      | vList l => rfl
      | vDict dd => rfl

theorem coerceBildnummer_of_int (d : List (String × Value)) (v : Value)
    (h : dictGet? d "bildnummer" = some v) (hi : isIntInstance v = true) :
    coerceBildnummer d = dictSet d "bildnummer" (.vStr (pyStrOf v)) := by
  unfold coerceBildnummer
  rw [h]
  simp [hi]

theorem coerceBildnummer_of_not_int (d : List (String × Value)) (v : Value)
    (h : dictGet? d "bildnummer" = some v) (hi : isIntInstance v = false) :
    coerceBildnummer d = d := by
  unfold coerceBildnummer
  rw [h]
  simp [hi]

theorem coerceDim_of_str (d : List (String × Value)) (f : String) (s : String)
    (h : dictGet? d f = some (.vStr s)) :
    coerceDim d f = if pyIsDigit s then dictSet d f (.vInt (strToNat s)) else d := by
  unfold coerceDim
  rw [h]

theorem coerceDim_of_vInt (d : List (String × Value)) (f : String) (n : Int)
    (h : dictGet? d f = some (.vInt n)) : coerceDim d f = d := by
  unfold coerceDim
  rw [h]

theorem applyDefaults_noop (d : List (String × Value))
    (h1 : dictContains d "bildnummer" = true) (h2 : dictContains d "hoehe" = true)
    (h3 : dictContains d "breite" = true) (h4 : dictContains d "db" = true) :
    applyDefaults d = d := by
  rw [applyDefaults_eq, setDefault_of_contains _ _ _ h1,
    setDefault_of_contains _ _ _ h2, setDefault_of_contains _ _ _ h3,
    setDefault_of_contains _ _ _ h4]

/- ------------------------------------------------------------------
   normalizeDict lemmas
   ------------------------------------------------------------------ -/

theorem normalizeDict_contains (d : List (String × Value)) :
    dictContains (normalizeDict d) "bildnummer" = true ∧
    dictContains (normalizeDict d) "hoehe" = true ∧
    dictContains (normalizeDict d) "breite" = true ∧
    dictContains (normalizeDict d) "db" = true := by
  obtain ⟨c1, c2, c3, c4⟩ := dictContains_applyDefaults d
  unfold normalizeDict
  exact ⟨coerceDim_contains_mono _ _ _ (coerceDim_contains_mono _ _ _
      (coerceBildnummer_contains_mono _ _ c1)),
    coerceDim_contains_mono _ _ _ (coerceDim_contains_mono _ _ _
      (coerceBildnummer_contains_mono _ _ c2)),
    coerceDim_contains_mono _ _ _ (coerceDim_contains_mono _ _ _
      (coerceBildnummer_contains_mono _ _ c3)),
    coerceDim_contains_mono _ _ _ (coerceDim_contains_mono _ _ _
      (coerceBildnummer_contains_mono _ _ c4))⟩

theorem normalizeDict_bn_char (d : List (String × Value)) :
    ∀ v, dictGet? (normalizeDict d) "bildnummer" = some v →
      isIntInstance v = false := by
  intro v hv
  unfold normalizeDict at hv
  rw [coerceDim_frame _ "breite" "bildnummer" (by decide),
    coerceDim_frame _ "hoehe" "bildnummer" (by decide)] at hv
  exact coerceBildnummer_char _ v hv

theorem normalizeDict_hoehe_char (d : List (String × Value)) :
    ∀ v, dictGet? (normalizeDict d) "hoehe" = some v →
      isDigitStrVal v = false := by
  intro v hv
  unfold normalizeDict at hv
  rw [coerceDim_frame _ "breite" "hoehe" (by decide)] at hv
  exact coerceDim_char _ _ v hv

theorem normalizeDict_breite_char (d : List (String × Value)) :
    ∀ v, dictGet? (normalizeDict d) "breite" = some v →
      isDigitStrVal v = false := by
  intro v hv
  exact coerceDim_char _ _ v hv

theorem normalizeDict_idem (d : List (String × Value)) :
    normalizeDict (normalizeDict d) = normalizeDict d := by
  obtain ⟨c1, c2, c3, c4⟩ := normalizeDict_contains d
  show coerceDim (coerceDim (coerceBildnummer (applyDefaults (normalizeDict d)))
    "hoehe") "breite" = normalizeDict d
  rw [applyDefaults_noop _ c1 c2 c3 c4,
    coerceBildnummer_noop _ (normalizeDict_bn_char d),
    coerceDim_noop _ _ (normalizeDict_hoehe_char d),
    coerceDim_noop _ _ (normalizeDict_breite_char d)]

/- ------------------------------------------------------------------
   Claims about normalize_media_item (C6, C7, C8, C10)
   ------------------------------------------------------------------ -/

/-- Claim C6: for every normalized record, regardless of which fields
the source document contained, `additional_data` contains the keys
`bildnummer`, `hoehe`, `breite` and `db`, and when a key was absent it
now holds its default (`""`, `0`, `0`, `"st"` respectively). -/
theorem C6_default_completeness (m : MediaItem) :
    dictContains (normalize_media_item m).additional_data "bildnummer" = true ∧
    dictContains (normalize_media_item m).additional_data "hoehe" = true ∧
    dictContains (normalize_media_item m).additional_data "breite" = true ∧
    dictContains (normalize_media_item m).additional_data "db" = true ∧
    (dictGet? m.additional_data "bildnummer" = none →
      dictGet? (normalize_media_item m).additional_data "bildnummer"
        = some (.vStr "")) ∧
    (dictGet? m.additional_data "hoehe" = none →
      dictGet? (normalize_media_item m).additional_data "hoehe"
        = some (.vInt 0)) ∧
    (dictGet? m.additional_data "breite" = none →
      dictGet? (normalize_media_item m).additional_data "breite"
        = some (.vInt 0)) ∧
    (dictGet? m.additional_data "db" = none →
      dictGet? (normalize_media_item m).additional_data "db"
        = some (.vStr "st")) := by
  obtain ⟨c1, c2, c3, c4⟩ := normalizeDict_contains m.additional_data
  refine ⟨c1, c2, c3, c4, ?_, ?_, ?_, ?_⟩
  · intro h
    have hA : dictGet? (applyDefaults m.additional_data) "bildnummer"
        = some (.vStr "") := by
      rw [applyDefaults_eq]
      apply dictGet?_setDefault_pres
      apply dictGet?_setDefault_pres
      apply dictGet?_setDefault_pres
      exact dictGet?_setDefault_of_none _ _ _ h
    show dictGet? (normalizeDict m.additional_data) "bildnummer" = some (.vStr "")
    unfold normalizeDict
    rw [coerceDim_frame _ "breite" "bildnummer" (by decide),
      coerceDim_frame _ "hoehe" "bildnummer" (by decide),
      coerceBildnummer_of_not_int _ _ hA rfl]
    exact hA
  · intro h
    have hA : dictGet? (applyDefaults m.additional_data) "hoehe"
        = some (.vInt 0) := by
      rw [applyDefaults_eq]
      apply dictGet?_setDefault_pres
      apply dictGet?_setDefault_pres
      apply dictGet?_setDefault_of_none
      rw [dictGet?_setDefault_other _ _ _ _ (by decide)]
      exact h
    have hB : dictGet? (coerceBildnummer (applyDefaults m.additional_data)) "hoehe"
        = some (.vInt 0) := by
      rw [coerceBildnummer_frame _ _ (by decide)]
      exact hA
    show dictGet? (normalizeDict m.additional_data) "hoehe" = some (.vInt 0)
    unfold normalizeDict
    rw [coerceDim_frame _ "breite" "hoehe" (by decide),
      coerceDim_of_vInt _ _ 0 hB]
    exact hB
  · intro h
    have hA : dictGet? (applyDefaults m.additional_data) "breite"
        = some (.vInt 0) := by
      rw [applyDefaults_eq]
      apply dictGet?_setDefault_pres
      apply dictGet?_setDefault_of_none
      rw [dictGet?_setDefault_other _ _ _ _ (by decide),
        dictGet?_setDefault_other _ _ _ _ (by decide)]
      exact h
    have hB : dictGet? (coerceBildnummer (applyDefaults m.additional_data)) "breite"
        = some (.vInt 0) := by
      rw [coerceBildnummer_frame _ _ (by decide)]
      exact hA
    have hC : dictGet? (coerceDim (coerceBildnummer
        (applyDefaults m.additional_data)) "hoehe") "breite" = some (.vInt 0) := by
      rw [coerceDim_frame _ "hoehe" "breite" (by decide)]
      exact hB
    show dictGet? (normalizeDict m.additional_data) "breite" = some (.vInt 0)
    unfold normalizeDict
    rw [coerceDim_of_vInt _ _ 0 hC]
    exact hC
  · intro h
    have hA : dictGet? (applyDefaults m.additional_data) "db"
        = some (.vStr "st") := by
      rw [applyDefaults_eq]
      apply dictGet?_setDefault_of_none
      rw [dictGet?_setDefault_other _ _ _ _ (by decide),
        dictGet?_setDefault_other _ _ _ _ (by decide),
        dictGet?_setDefault_other _ _ _ _ (by decide)]
      exact h
    show dictGet? (normalizeDict m.additional_data) "db" = some (.vStr "st")
    unfold normalizeDict
    rw [coerceDim_frame _ "breite" "db" (by decide),
      coerceDim_frame _ "hoehe" "db" (by decide),
      coerceBildnummer_frame _ _ (by decide)]
    exact hA

/-- Claim C6, witness: normalizing an item with empty `additional_data`
yields all four keys with their documented defaults. -/
theorem C6_default_completeness_witness :
    dictGet? (normalize_media_item
      { id := .vStr "test", title := .vStr "", description := .vStr "",
        photographer := .vStr "", date := .vStr "", thumbnail_url := .vStr "",
        additional_data := [] }).additional_data "bildnummer" = some (.vStr "") ∧
    dictGet? (normalize_media_item
      { id := .vStr "test", title := .vStr "", description := .vStr "",
        photographer := .vStr "", date := .vStr "", thumbnail_url := .vStr "",
        additional_data := [] }).additional_data "hoehe" = some (.vInt 0) ∧
    dictGet? (normalize_media_item
      { id := .vStr "test", title := .vStr "", description := .vStr "",
        photographer := .vStr "", date := .vStr "", thumbnail_url := .vStr "",
        additional_data := [] }).additional_data "breite" = some (.vInt 0) ∧
    dictGet? (normalize_media_item
      { id := .vStr "test", title := .vStr "", description := .vStr "",
        photographer := .vStr "", date := .vStr "", thumbnail_url := .vStr "",
        additional_data := [] }).additional_data "db" = some (.vStr "st") := by
  have h := C6_default_completeness
    { id := .vStr "test", title := .vStr "", description := .vStr "",
      photographer := .vStr "", date := .vStr "", thumbnail_url := .vStr "",
      additional_data := [] }
  exact ⟨h.2.2.2.2.1 rfl, h.2.2.2.2.2.1 rfl, h.2.2.2.2.2.2.1 rfl,
    h.2.2.2.2.2.2.2 rfl⟩

/-- Claim C7: normalization coerces an integer-valued `bildnummer` to
its decimal string form, coerces `hoehe`/`breite` values that are digit
strings to integers, and leaves non-numeric string values of
`hoehe`/`breite` untouched. -/
theorem C7_normalize_coercions (m : MediaItem) (n : Int) (s t : String) :
    (dictGet? m.additional_data "bildnummer" = some (.vInt n) →
      dictGet? (normalize_media_item m).additional_data "bildnummer"
        = some (.vStr (pyIntRepr n))) ∧
    (dictGet? m.additional_data "hoehe" = some (.vStr s) →
      dictGet? (normalize_media_item m).additional_data "hoehe"
        = some (if pyIsDigit s then .vInt (strToNat s) else .vStr s)) ∧
    (dictGet? m.additional_data "breite" = some (.vStr t) →
      dictGet? (normalize_media_item m).additional_data "breite"
        = some (if pyIsDigit t then .vInt (strToNat t) else .vStr t)) := by
  refine ⟨?_, ?_, ?_⟩
  · intro h
    have hA : dictGet? (applyDefaults m.additional_data) "bildnummer"
        = some (.vInt n) := dictGet?_applyDefaults_pres _ _ _ h
    have hB : dictGet? (coerceBildnummer (applyDefaults m.additional_data))
        "bildnummer" = some (.vStr (pyIntRepr n)) := by
      rw [coerceBildnummer_of_int _ _ hA rfl]
      exact dictGet?_set_self _ _ _
    show dictGet? (normalizeDict m.additional_data) "bildnummer"
      = some (.vStr (pyIntRepr n))
    unfold normalizeDict
    rw [coerceDim_frame _ "breite" "bildnummer" (by decide),
      coerceDim_frame _ "hoehe" "bildnummer" (by decide)]
    exact hB
  · intro h
    have hA : dictGet? (applyDefaults m.additional_data) "hoehe"
        = some (.vStr s) := dictGet?_applyDefaults_pres _ _ _ h
    have hB : dictGet? (coerceBildnummer (applyDefaults m.additional_data))
        "hoehe" = some (.vStr s) := by
      rw [coerceBildnummer_frame _ _ (by decide)]
      exact hA
    have hC : dictGet? (coerceDim (coerceBildnummer
        (applyDefaults m.additional_data)) "hoehe") "hoehe"
        = some (if pyIsDigit s then .vInt (strToNat s) else .vStr s) := by
      rw [coerceDim_of_str _ _ _ hB]
      by_cases hd : pyIsDigit s
      · simp [hd, dictGet?_set_self]
      · simp [hd, hB]
    show dictGet? (normalizeDict m.additional_data) "hoehe"
      = some (if pyIsDigit s then .vInt (strToNat s) else .vStr s)
    unfold normalizeDict
    rw [coerceDim_frame _ "breite" "hoehe" (by decide)]
    exact hC
  · intro h
    have hA : dictGet? (applyDefaults m.additional_data) "breite"
        = some (.vStr t) := dictGet?_applyDefaults_pres _ _ _ h
    have hB : dictGet? (coerceBildnummer (applyDefaults m.additional_data))
        "breite" = some (.vStr t) := by
      rw [coerceBildnummer_frame _ _ (by decide)]
      exact hA
    have hC : dictGet? (coerceDim (coerceBildnummer
        (applyDefaults m.additional_data)) "hoehe") "breite"
        = some (.vStr t) := by
      rw [coerceDim_frame _ "hoehe" "breite" (by decide)]
      exact hB
    show dictGet? (normalizeDict m.additional_data) "breite"
      = some (if pyIsDigit t then .vInt (strToNat t) else .vStr t)
    unfold normalizeDict
    rw [coerceDim_of_str _ _ _ hC]
    by_cases hd : pyIsDigit t
    · simp [hd, dictGet?_set_self]
    · simp [hd, hC]

/-- Claim C7, witness: the item of the repo's own static test
(`bildnummer = 98765`, `hoehe = "500"`, `breite = "invalid"`). -/
theorem C7_normalize_coercions_witness :
    dictGet? (normalize_media_item
      { id := .vStr "test", title := .vStr "", description := .vStr "",
        photographer := .vStr "", date := .vStr "", thumbnail_url := .vStr "",
        additional_data :=
          [("bildnummer", .vInt 98765), ("hoehe", .vStr "500"),
           ("breite", .vStr "invalid")] }).additional_data "bildnummer"
      = some (.vStr "98765") ∧
    dictGet? (normalize_media_item
      { id := .vStr "test", title := .vStr "", description := .vStr "",
        photographer := .vStr "", date := .vStr "", thumbnail_url := .vStr "",
        additional_data :=
          [("bildnummer", .vInt 98765), ("hoehe", .vStr "500"),
           ("breite", .vStr "invalid")] }).additional_data "hoehe"
      = some (.vInt 500) ∧
    dictGet? (normalize_media_item
      { id := .vStr "test", title := .vStr "", description := .vStr "",
        photographer := .vStr "", date := .vStr "", thumbnail_url := .vStr "",
        additional_data :=
          [("bildnummer", .vInt 98765), ("hoehe", .vStr "500"),
           ("breite", .vStr "invalid")] }).additional_data "breite"
      = some (.vStr "invalid") := by
  have h := C7_normalize_coercions
    { id := .vStr "test", title := .vStr "", description := .vStr "",
      photographer := .vStr "", date := .vStr "", thumbnail_url := .vStr "",
      additional_data :=
        [("bildnummer", .vInt 98765), ("hoehe", .vStr "500"),
         ("breite", .vStr "invalid")] } 98765 "500" "invalid"
  exact ⟨h.1 rfl, h.2.1 rfl, h.2.2 rfl⟩

/-- Claim C8: `normalize_media_item` is idempotent — normalizing a
record twice yields the same record as normalizing it once. -/
theorem C8_normalize_idempotent (m : MediaItem) :
    normalize_media_item (normalize_media_item m) = normalize_media_item m := by
  show ({ m with additional_data :=
      normalizeDict (normalizeDict m.additional_data) } : MediaItem)
    = { m with additional_data := normalizeDict m.additional_data }
  rw [normalizeDict_idem]

/-- Claim C10: `normalize_media_item` modifies at most the
`additional_data` entries under `bildnummer`, `hoehe`, `breite`, `db`;
every other `additional_data` entry (including nested objects and
arrays, which are `Value`s) and every named attribute of the item is
left exactly unchanged. -/
theorem C10_normalize_frame (m : MediaItem) (k : String) :
    (k ∉ ["bildnummer", "hoehe", "breite", "db"] →
      dictGet? (normalize_media_item m).additional_data k
        = dictGet? m.additional_data k) ∧
    (normalize_media_item m).id = m.id ∧
    (normalize_media_item m).title = m.title ∧
    (normalize_media_item m).description = m.description ∧
    (normalize_media_item m).photographer = m.photographer ∧
    (normalize_media_item m).date = m.date ∧
    (normalize_media_item m).thumbnail_url = m.thumbnail_url := by
  refine ⟨?_, rfl, rfl, rfl, rfl, rfl, rfl⟩
  intro hk
  simp only [List.mem_cons, List.mem_singleton, not_or] at hk
  obtain ⟨h1, h2, h3, h4, -⟩ := hk
  show dictGet? (normalizeDict m.additional_data) k = dictGet? m.additional_data k
  unfold normalizeDict
  rw [coerceDim_frame _ "breite" k h3, coerceDim_frame _ "hoehe" k h2,
    coerceBildnummer_frame _ _ h1,
    dictGet?_applyDefaults_other _ _ h1 h2 h3 h4]

/-- Claim C10, witness: a nested object under a custom key and all named
attributes survive normalization unchanged. -/
theorem C10_normalize_frame_witness :
    dictGet? (normalize_media_item
      { id := .vStr "test", title := .vStr "T", description := .vStr "D",
        photographer := .vStr "P", date := .vStr "2023-01-01",
        thumbnail_url := .vStr "U",
        additional_data :=
          [("nested_field", .vDict [("key", .vStr "value")]),
           ("array_field", .vList [.vInt 1, .vInt 2, .vInt 3])]
      }).additional_data "nested_field" = some (.vDict [("key", .vStr "value")]) ∧
    (normalize_media_item
      { id := .vStr "test", title := .vStr "T", description := .vStr "D",
        photographer := .vStr "P", date := .vStr "2023-01-01",
        thumbnail_url := .vStr "U",
        additional_data :=
          [("nested_field", .vDict [("key", .vStr "value")]),
           ("array_field", .vList [.vInt 1, .vInt 2, .vInt 3])]
      }).title = .vStr "T" := by
  have h := C10_normalize_frame
    { id := .vStr "test", title := .vStr "T", description := .vStr "D",
      photographer := .vStr "P", date := .vStr "2023-01-01",
      thumbnail_url := .vStr "U",
      additional_data :=
        [("nested_field", .vDict [("key", .vStr "value")]),
         ("array_field", .vList [.vInt 1, .vInt 2, .vInt 3])] } "nested_field"
  refine ⟨?_, h.2.2.1⟩
  rw [h.1 (by decide)]
  rfl

/- ------------------------------------------------------------------
   Claims about the search pipeline (C1, C2, C3, C4, C5, C9)
   ------------------------------------------------------------------ -/

/-- Claim C1 (refuted by the code): no sanitization exists anywhere on
the search path.  A record returned by the search pipeline keeps a
string value in `additional_data` byte for byte, markup included: the
returned text still contains the markup delimiter. -/
theorem C1_markup_not_stripped :
    (search_results
      (.vDict [("hits", .vDict
        [("total", .vDict [("value", .vInt 1)]),
         ("hits", .vList [.vDict
           [("_id", .vStr "1"),
            ("_source", .vDict
              [("script", .vStr "<script>alert(1)</script>")])]])])])
      (some "https://x.test")).map
        (fun r => r.2.map (fun it => dictGet? it.additional_data "script"))
      = .ok [some (.vStr "<script>alert(1)</script>")] ∧
    "<script>alert(1)</script>".data.contains '<' = true := ⟨rfl, rfl⟩

/-- Claim C2 (refuted by the code): a hit whose `_source` carries a
numeric `bildnummer` (together with a non-empty `db`) aborts the whole
search: `build_thumbnail_url` calls `.zfill(10)` on the int before
normalization could coerce it, raising AttributeError. -/
theorem C2_numeric_bildnummer_aborts_search :
    search_results
      (.vDict [("hits", .vDict
        [("total", .vDict [("value", .vInt 1)]),
         ("hits", .vList [.vDict
           [("_id", .vStr "1"),
            ("_source", .vDict
              [("bildnummer", .vInt 123456), ("db", .vStr "st")])]])])])
      (some "https://x.test")
      = .error (.attributeError "zfill") := rfl

/-- Claim C3 (refuted by the code): `fetch_media_items` performs no
validation at all — it always sends `(page - 1) * size` and the given
`size` to the index, so `page = 0` sends the negative offset `-10` and
`size = 500` is passed through uncapped instead of failing. -/
theorem C3_no_pagination_validation :
    (∀ (idx q : String) (page size : Int)
        (fs : Option (List (String × String))),
      (fetch_media_items_request idx q page size fs).from_ = (page - 1) * size ∧
      (fetch_media_items_request idx q page size fs).size = size) ∧
    (fetch_media_items_request "media" "test" 0 10 none).from_ = -10 ∧
    (fetch_media_items_request "media" "test" 1 500 none).size = 500 := by
  refine ⟨fun idx q page size fs => ⟨rfl, rfl⟩, by decide, rfl⟩

/-- Claim C5 (refuted by the code): `_build_elasticsearch_query` never
validates date filter values — `min_date = "not-a-date"` is propagated
verbatim into the range clause of the query sent to the index, not
dropped. -/
theorem C5_malformed_date_propagated :
    build_elasticsearch_query "test" (some [("min_date", "not-a-date")])
      = .vDict [("bool", .vDict
          [("must", .vDict [("multi_match", .vDict
              [("query", .vStr "test"), ("fields", .vList searchFields)])]),
           ("filter", .vList [.vDict [("range", .vDict
              [("datum", .vDict [("gte", .vStr "not-a-date")])])]])])] := rfl

/-- Claim C9, counterexample: the multi-field match clause is built
over `suchtext`, `description` and `title` only — the photographer
field `fotografen` is not among the match fields, contrary to the
claim. -/
theorem C9_counterexample_no_photographer_field :
    build_elasticsearch_query "x" none
      = .vDict [("multi_match", .vDict
          [("query", .vStr "x"),
           ("fields", .vList
             [.vStr "suchtext", .vStr "description", .vStr "title"])])] ∧
    Value.vStr "fotografen"
      ∉ [Value.vStr "suchtext", .vStr "description", .vStr "title"] := by
  refine ⟨rfl, ?_⟩
  simp

/-- Claim C4, counterexample: for a source document with
`bildnummer = "123456"` and NO `db` field, the thumbnail URL is not
empty — `db` was defaulted to `"st"` during conversion, so the URL is
built with bucket `st`. -/
theorem C4_counterexample_missing_db_builds_url :
    (convert_hit_to_media_item
      [("_id", .vStr "1"), ("_source", .vDict [("bildnummer", .vStr "123456")])]
      (some "https://x.test")).map MediaItem.thumbnail_url
      = .ok (.vStr "https://x.test/bild/st/0000123456/s.jpg") ∧
    Value.vStr "https://x.test/bild/st/0000123456/s.jpg" ≠ Value.vStr "" := by
  exact ⟨rfl, by simp⟩

/-- Claim C4, amended: the URL equals
`<image_base_url>/bild/<db>/<bildnummer zero-padded to 10>/s.jpg`
exactly when the post-default `bildnummer` and `db` values are both
non-empty, and is empty otherwise; since `db` defaults to `"st"`, a
source without `db` still yields a URL (with bucket `st`) whenever
`bildnummer` is non-empty. -/
theorem C4_thumbnail_url_amended (bn dbv base : String) :
    ((convert_hit_to_media_item
      [("_id", .vStr "1"),
       ("_source", .vDict [("bildnummer", .vStr bn), ("db", .vStr dbv)])]
      (some base)).map MediaItem.thumbnail_url
      = .ok (.vStr (if bn.data.isEmpty || dbv.data.isEmpty then ""
          else base ++ "/bild/" ++ dbv ++ "/" ++ zfill bn 10 ++ "/s.jpg"))) ∧
    ((convert_hit_to_media_item
      [("_id", .vStr "1"), ("_source", .vDict [("bildnummer", .vStr bn)])]
      (some base)).map MediaItem.thumbnail_url
      = .ok (.vStr (if bn.data.isEmpty then ""
          else base ++ "/bild/st/" ++ zfill bn 10 ++ "/s.jpg"))) := by
  constructor
  · by_cases h1 : bn.data.isEmpty <;> by_cases h2 : dbv.data.isEmpty <;>
      simp [convert_hit_to_media_item, pyGet, dictGetD, dictGet?, dictSet,
        pyTruthy, pySlice, pyStrip, build_thumbnail_url, pyStrOf,
        excludedKeys, h1, h2, Except.map, bind, Except.bind, List.foldl]
  · by_cases h1 : bn.data.isEmpty
    · simp [convert_hit_to_media_item, pyGet, dictGetD, dictGet?, dictSet,
        pyTruthy, pySlice, pyStrip, build_thumbnail_url, pyStrOf,
        excludedKeys, h1, Except.map, bind, Except.bind, List.foldl]
    · rw [show ("/bild/st/" : String) = "/bild/" ++ "st" ++ "/" from rfl]
      simp [convert_hit_to_media_item, pyGet, dictGetD, dictGet?, dictSet,
        pyTruthy, pySlice, pyStrip, build_thumbnail_url, pyStrOf,
        excludedKeys, h1, Except.map, bind, Except.bind, List.foldl,
        String.append_assoc]

/-- Claim C9, amended: the match clause for non-empty text is a
multi-field match over `suchtext`, `description` and `title` (the
photographer field is NOT among the match fields); with a non-empty
filter map it is wrapped in a bool must+filter composite whose filter
list translates `photographer` to an exact term on `fotografen`,
`min_date`/`max_date` to inclusive `gte`/`lte` ranges on `datum`, and
every other key to an exact term on the same-named field; empty text
with empty or absent filters yields a bare match-all. -/
theorem C9_query_shape_amended (q : String) (fs : List (String × String)) :
    (build_elasticsearch_query "" none = .vDict [("match_all", .vDict [])] ∧
     build_elasticsearch_query "" (some []) = .vDict [("match_all", .vDict [])]) ∧
    (q.data.isEmpty = false → fs ≠ [] →
      build_elasticsearch_query q (some fs)
        = .vDict [("bool", .vDict
            [("must", .vDict [("multi_match", .vDict
                [("query", .vStr q),
                 ("fields", .vList
                   [.vStr "suchtext", .vStr "description", .vStr "title"])])]),
             ("filter", .vList (filterConditions fs))])]) ∧
    (∀ pv, filterLookup fs "photographer" = some pv →
      (Value.vDict [("term", .vDict [("fotografen", .vStr pv)])])
        ∈ filterConditions fs) ∧
    (∀ mv, filterLookup fs "min_date" = some mv →
      (Value.vDict [("range", .vDict [("datum", .vDict [("gte", .vStr mv)])])])
        ∈ filterConditions fs) ∧
    (∀ mv, filterLookup fs "max_date" = some mv →
      (Value.vDict [("range", .vDict [("datum", .vDict [("lte", .vStr mv)])])])
        ∈ filterConditions fs) ∧
    (∀ k v, (k, v) ∈ fs → k ∉ specialFilterKeys →
      (Value.vDict [("term", .vDict [(k, .vStr v)])]) ∈ filterConditions fs) := by
  refine ⟨⟨rfl, rfl⟩, ?_, ?_, ?_, ?_, ?_⟩
  · intro hq hfs
    cases fs with
    | nil => exact absurd rfl hfs
    | cons a l => simp [build_elasticsearch_query, searchFields, hq]
  · intro pv h
    unfold filterConditions
    rw [h]
    simp
  · intro mv h
    unfold filterConditions
    rw [h]
    simp
  · intro mv h
    unfold filterConditions
    rw [h]
    simp
  · intro k v hmem hns
    unfold filterConditions
    refine List.mem_append_right _ (List.mem_map.mpr ⟨(k, v), ?_, rfl⟩)
    exact List.mem_filter.mpr ⟨hmem, by simpa using hns⟩

/-- Claim C9 amended, witness: a concrete query with all filter kinds. -/
theorem C9_query_shape_amended_witness :
    build_elasticsearch_query "x"
      (some [("photographer", "P"), ("min_date", "2020-01-01"),
             ("max_date", "2021-01-01"), ("db", "st")])
      = .vDict [("bool", .vDict
          [("must", .vDict [("multi_match", .vDict
              [("query", .vStr "x"),
               ("fields", .vList
                 [.vStr "suchtext", .vStr "description", .vStr "title"])])]),
           ("filter", .vList (filterConditions
             [("photographer", "P"), ("min_date", "2020-01-01"),
              ("max_date", "2021-01-01"), ("db", "st")]))])] ∧
    (Value.vDict [("term", .vDict [("fotografen", .vStr "P")])])
      ∈ filterConditions
        [("photographer", "P"), ("min_date", "2020-01-01"),
         ("max_date", "2021-01-01"), ("db", "st")] ∧
    (Value.vDict [("range", .vDict [("datum", .vDict [("gte", .vStr "2020-01-01")])])])
      ∈ filterConditions
        [("photographer", "P"), ("min_date", "2020-01-01"),
         ("max_date", "2021-01-01"), ("db", "st")] ∧
    (Value.vDict [("range", .vDict [("datum", .vDict [("lte", .vStr "2021-01-01")])])])
      ∈ filterConditions
        [("photographer", "P"), ("min_date", "2020-01-01"),
         ("max_date", "2021-01-01"), ("db", "st")] ∧
    (Value.vDict [("term", .vDict [("db", .vStr "st")])])
      ∈ filterConditions
        [("photographer", "P"), ("min_date", "2020-01-01"),
         ("max_date", "2021-01-01"), ("db", "st")] := by
  have h := C9_query_shape_amended "x"
    [("photographer", "P"), ("min_date", "2020-01-01"),
     ("max_date", "2021-01-01"), ("db", "st")]
  exact ⟨h.2.1 rfl (by decide), h.2.2.1 "P" rfl, h.2.2.2.1 "2020-01-01" rfl,
    h.2.2.2.2.1 "2021-01-01" rfl, h.2.2.2.2.2 "db" "st" (by decide) (by decide)⟩
